import Mathlib

/-!
Verification development for the sonnenbatterie-exporter.

The repository carries two evolutionary variants of the collector:
* the API-proxy variant (`main.go`): three endpoints (`/api/system`,
  `/api/consumption`, `/api/status`), where the status fetch is supplementary
  and its failure only drops the status-derived metrics;
* the direct-API variant (`collector.go` / `client.go` / `config.go`): two
  endpoints (`/api/v2/latestdata`, `/api/v2/status`), both mandatory, with an
  `Auth-Token` request header.  The direct variant itself exists in two
  revisions, differing in which endpoint supplies the overlapping power
  values and in whether voltage/frequency metrics are emitted.

Each Go collector is embedded as a pure function from its fetch results to
the list of emitted metric observations; `fetchJSON` is embedded as a pure
function of the network's answer; numeric values (Go `float64` / `int`) are
modelled as `ℚ` / `Int`.
-/

namespace SonnenExporter

/-- One metric observation sent on the collect channel
(`prometheus.MustNewConstMetric(desc, GaugeValue, value, labels...)`):
the metric's name, its gauge value, and its ordered label values. -/
structure Observation where
  metric : String
  value : ℚ
  labels : List String
deriving DecidableEq, Repr

/-- The distinctions `fetchJSON` makes among failures: request
construction failure (`http.NewRequest` error, direct variant only),
transport failure (`client.Do` / `client.Get` error), non-200 status
(carrying the code and URL), and JSON decode failure (carrying the URL). -/
inductive FetchError where
  | requestBuildFailure : String → FetchError
  | connectionFailure : String → FetchError
  | unexpectedStatus : Int → String → FetchError
  | decodeFailure : String → FetchError
deriving DecidableEq, Repr

/-- Value of the first observation for a given metric name, if any. -/
def lookupValue (out : List Observation) (metric : String) : Option ℚ :=
  (out.find? (fun o => o.metric = metric)).map Observation.value

/-- Recognises the scrape-health metric `sonnenbatterie_scrape_success`. -/
def isScrapeHealth (o : Observation) : Bool :=
  o.metric = "sonnenbatterie_scrape_success"

namespace Direct

/-- An outgoing HTTP request as built in `client.go`. -/
structure HTTPRequest where
  Method : String
  URL : String
  Headers : List (String × String)
deriving DecidableEq, Repr

/-- The part of an HTTP response `fetchJSON` inspects. -/
structure HTTPResponse where
  StatusCode : Int
  Body : String
deriving DecidableEq, Repr

/-- The network: how the outside world answers one HTTP request.
`none` models a transport failure (DNS, connect, timeout). -/
def Network : Type := HTTPRequest → Option HTTPResponse

/-- Embeds the body of `fetchJSON` from `client.go` from the point where
`http.NewRequest` has succeeded (lines 37 onward): sets the `Auth-Token`
header unconditionally on the built GET request, performs the request
once via `client.Do`, rejects any status other than exactly 200 carrying
the code, then decodes the body.  The first component records the
requests issued (on this path, the single built request — there is no
retry branch).  `fetchJSONFull` adds the `http.NewRequest` error branch
in front of this body. -/
def fetchJSON {α : Type} (net : Network) (decode : String → Option α)
    (url : String) (token : String) : List HTTPRequest × Except FetchError α :=
  let req : HTTPRequest := ⟨"GET", url, [("Auth-Token", token)]⟩
  (⟨[req],
    match net req with
    | none => .error (.connectionFailure url)
    | some resp =>
      if resp.StatusCode ≠ 200 then
        .error (.unexpectedStatus resp.StatusCode url)
      else
        match decode resp.Body with
        | none => .error (.decodeFailure url)
        | some v => .ok v⟩)

/-- Embeds `fetchJSON` from `client.go` in full, including the
`http.NewRequest` error branch (lines 33-36).  URL parsing itself is not
modelled: the oracle `urlOK` stands for whether `http.NewRequest` accepts
the URL (Go rejects, for example, a URL containing a control character).
When it rejects, the function returns the build error having issued no
request and set no header; when it accepts, the rest of the body is
exactly `fetchJSON`. -/
def fetchJSONFull {α : Type} (urlOK : String → Bool) (net : Network)
    (decode : String → Option α) (url : String) (token : String) :
    List HTTPRequest × Except FetchError α :=
  if urlOK url then fetchJSON net decode url token
  else ([], .error (.requestBuildFailure url))

/-- `IC_Status` block of the latest-data response (`types.go`, fields as
used in `collector.go` and the test fixtures). -/
structure ICStatus where
  StateBMS : String
  StateCoreControlModule : String
  StateInverter : String
  NrBatteryModules : Int
deriving DecidableEq, Repr

/-- The combined `/api/v2/latestdata` response shape. -/
structure LatestData where
  ConsumptionW : ℚ
  FullChargeCapacity : Int
  GridFeedInW : ℚ
  PacTotalW : ℚ
  ProductionW : ℚ
  RSOC : Int
  USOC : Int
  Timestamp : String
  ICStatus : ICStatus
deriving DecidableEq, Repr

/-- The supplementary `/api/v2/status` response shape. -/
structure Status where
  BatteryCharging : Bool
  BatteryDischarging : Bool
  ConsumptionW : ℚ
  GridFeedInW : ℚ
  PacTotalW : ℚ
  ProductionW : ℚ
  SystemStatus : String
  Uac : ℚ
  Ubat : ℚ
  Fac : ℚ
deriving DecidableEq, Repr

/-- One configured battery in the direct-API variant. -/
structure Battery where
  Name : String
  IP : String
  AuthToken : String
deriving DecidableEq, Repr

/-- The two fetch operations `collectBattery` performs, abstracted over
their outcome (`fetchLatestData` and `fetchStatus` from `client.go`). -/
structure FetchEnv where
  latestData : Battery → Except FetchError LatestData
  status : Battery → Except FetchError Status

namespace V1

/-- Embeds `collectBattery` from the earlier direct-variant `collector.go`
(11 metrics): both fetches are mandatory — a failure of either emits the
single scrape-success-0 observation and returns; on success the power
values come from the latest-data (combined) shape, multiplied by 1000. -/
def collectBattery (env : FetchEnv) (b : Battery) : List Observation :=
  match env.latestData b with
  | .error _ => [⟨"sonnenbatterie_scrape_success", 0, [b.Name]⟩]
  | .ok latestData =>
    match env.status b with
    | .error _ => [⟨"sonnenbatterie_scrape_success", 0, [b.Name]⟩]
    | .ok status =>
      let labels := [b.Name, latestData.ICStatus.StateBMS, latestData.ICStatus.StateInverter]
      [⟨"sonnenbatterie_scrape_success", 1, [b.Name]⟩,
       ⟨"sonnenbatterie_charge_level_percent", (latestData.RSOC : ℚ), labels⟩,
       ⟨"sonnenbatterie_user_charge_level_percent", (latestData.USOC : ℚ), labels⟩,
       ⟨"sonnenbatterie_consumption_mw", latestData.ConsumptionW * 1000, labels⟩,
       ⟨"sonnenbatterie_production_mw", latestData.ProductionW * 1000, labels⟩,
       ⟨"sonnenbatterie_grid_feed_in_mw", latestData.GridFeedInW * 1000, labels⟩,
       ⟨"sonnenbatterie_battery_power_mw", latestData.PacTotalW * 1000, labels⟩,
       ⟨"sonnenbatterie_full_charge_capacity_wh", (latestData.FullChargeCapacity : ℚ), labels⟩,
       ⟨"sonnenbatterie_charging", if status.BatteryCharging then 1 else 0, labels⟩,
       ⟨"sonnenbatterie_discharging", if status.BatteryDischarging then 1 else 0, labels⟩,
       ⟨"sonnenbatterie_info", 1,
        [b.Name, latestData.ICStatus.StateBMS, latestData.ICStatus.StateCoreControlModule,
         latestData.ICStatus.StateInverter, toString latestData.ICStatus.NrBatteryModules, b.IP]⟩]

/-- Embeds `Collect`: one task per configured battery, each emitting its
own observations; the cycle's output is the union of all tasks' outputs
(the `WaitGroup` barrier joins them; no inter-source order is modelled). -/
def Collect (env : FetchEnv) (batteries : List Battery) : List Observation :=
  (batteries.map (collectBattery env)).flatten

end V1

namespace V2

/-- Embeds `collectBattery` from the later direct-variant `collector.go`
(14 metrics): like `V1` but the overlapping power values are taken from the
status endpoint ("more accurate/real-time"), and AC voltage, battery
voltage and AC frequency are additionally emitted from the status shape. -/
def collectBattery (env : FetchEnv) (b : Battery) : List Observation :=
  match env.latestData b with
  | .error _ => [⟨"sonnenbatterie_scrape_success", 0, [b.Name]⟩]
  | .ok latestData =>
    match env.status b with
    | .error _ => [⟨"sonnenbatterie_scrape_success", 0, [b.Name]⟩]
    | .ok status =>
      let labels := [b.Name, latestData.ICStatus.StateBMS, latestData.ICStatus.StateInverter]
      [⟨"sonnenbatterie_scrape_success", 1, [b.Name]⟩,
       ⟨"sonnenbatterie_charge_level_percent", (latestData.RSOC : ℚ), labels⟩,
       ⟨"sonnenbatterie_user_charge_level_percent", (latestData.USOC : ℚ), labels⟩,
       ⟨"sonnenbatterie_consumption_mw", status.ConsumptionW * 1000, labels⟩,
       ⟨"sonnenbatterie_production_mw", status.ProductionW * 1000, labels⟩,
       ⟨"sonnenbatterie_grid_feed_in_mw", status.GridFeedInW * 1000, labels⟩,
       ⟨"sonnenbatterie_battery_power_mw", status.PacTotalW * 1000, labels⟩,
       ⟨"sonnenbatterie_full_charge_capacity_wh", (latestData.FullChargeCapacity : ℚ), labels⟩,
       ⟨"sonnenbatterie_charging", if status.BatteryCharging then 1 else 0, labels⟩,
       ⟨"sonnenbatterie_discharging", if status.BatteryDischarging then 1 else 0, labels⟩,
       ⟨"sonnenbatterie_ac_voltage", status.Uac, labels⟩,
       ⟨"sonnenbatterie_battery_voltage", status.Ubat, labels⟩,
       ⟨"sonnenbatterie_ac_frequency", status.Fac, labels⟩,
       ⟨"sonnenbatterie_info", 1,
        [b.Name, latestData.ICStatus.StateBMS, latestData.ICStatus.StateCoreControlModule,
         latestData.ICStatus.StateInverter, toString latestData.ICStatus.NrBatteryModules, b.IP]⟩]

/-- Embeds `Collect` of the later direct-variant `collector.go`. -/
def Collect (env : FetchEnv) (batteries : List Battery) : List Observation :=
  (batteries.map (collectBattery env)).flatten

end V2

end Direct

namespace Api

/-- Embeds `fetchJSON` from `main.go` (API-proxy variant): one plain
`client.Get` per call, no custom headers, same status gate (exactly 200)
and decode step as the direct variant. -/
def fetchJSON {α : Type} (net : Direct.Network) (decode : String → Option α)
    (url : String) : List Direct.HTTPRequest × Except FetchError α :=
  let req : Direct.HTTPRequest := ⟨"GET", url, []⟩
  (⟨[req],
    match net req with
    | none => .error (.connectionFailure url)
    | some resp =>
      if resp.StatusCode ≠ 200 then
        .error (.unexpectedStatus resp.StatusCode url)
      else
        match decode resp.Body with
        | none => .error (.decodeFailure url)
        | some v => .ok v⟩)

/-- The `/api/system` response shape of the API-proxy variant. -/
structure System where
  IP : String
  WanIP : String
  Model : String
  MAC : String
  SoftwareVersion : String
  HardwareVersion : String
  LED : String
deriving DecidableEq, Repr

/-- The `/api/consumption` response shape (already milliwatt-scale). -/
structure Consumption where
  CurrentMW : Int
deriving DecidableEq, Repr

/-- The `/api/status` response shape (already milliwatt-scale, with a
single tri-state `charge_mode` string). -/
structure Status where
  GridFeedInMW : Int
  ProductionMW : Int
  ChargeLevel : Int
  ChargeMode : String
deriving DecidableEq, Repr

/-- One configured battery in the API-proxy variant. -/
structure Battery where
  Name : String
  APIURL : String
deriving DecidableEq, Repr

/-- The three fetch operations `collectBattery` performs, abstracted over
their outcome (`fetchSystem`, `fetchConsumption`, `fetchStatus`). -/
structure FetchEnv where
  system : String → Except FetchError System
  consumption : String → Except FetchError Consumption
  status : String → Except FetchError Status

/-- The local `charging` computation in `collectBattery`:
`charging := 0.0; if status.ChargeMode == "charging" { charging = 1.0 }`. -/
def chargingFlag (chargeMode : String) : ℚ :=
  if chargeMode = "charging" then 1 else 0

/-- The local `discharging` computation in `collectBattery`. -/
def dischargingFlag (chargeMode : String) : ℚ :=
  if chargeMode = "discharging" then 1 else 0

/-- Embeds `collectBattery` from `main.go`: system and consumption fetches
are mandatory (either failure emits the single scrape-success-0 observation
and returns); the status fetch is supplementary — on failure `status` is
set to nil and only the status-derived metrics are skipped, while
scrape-success 1, consumption and info are still emitted. -/
def collectBattery (env : FetchEnv) (b : Battery) : List Observation :=
  match env.system b.APIURL with
  | .error _ => [⟨"sonnenbatterie_scrape_success", 0, [b.Name]⟩]
  | .ok system =>
    match env.consumption b.APIURL with
    | .error _ => [⟨"sonnenbatterie_scrape_success", 0, [b.Name]⟩]
    | .ok consumption =>
      let status : Option Status := (env.status b.APIURL).toOption
      let labels := [b.Name, system.Model, system.MAC]
      [⟨"sonnenbatterie_scrape_success", 1, [b.Name]⟩,
       ⟨"sonnenbatterie_consumption_mw", (consumption.CurrentMW : ℚ), labels⟩]
      ++ (match status with
          | some s =>
            [⟨"sonnenbatterie_charge_level_percent", (s.ChargeLevel : ℚ), labels⟩,
             ⟨"sonnenbatterie_production_mw", (s.ProductionMW : ℚ), labels⟩,
             ⟨"sonnenbatterie_grid_feed_in_mw", (s.GridFeedInMW : ℚ), labels⟩,
             ⟨"sonnenbatterie_charging", chargingFlag s.ChargeMode, labels⟩,
             ⟨"sonnenbatterie_discharging", dischargingFlag s.ChargeMode, labels⟩]
          | none => [])
      ++ [⟨"sonnenbatterie_info", 1,
           [b.Name, system.Model, system.MAC, system.SoftwareVersion,
            system.HardwareVersion, system.LED, system.IP, system.WanIP]⟩]

/-- Embeds `Collect` from `main.go`: one task per configured battery,
joined by the `WaitGroup` barrier. -/
def Collect (env : FetchEnv) (batteries : List Battery) : List Observation :=
  (batteries.map (collectBattery env)).flatten

end Api

namespace Config

/-- Embeds Go's `strings.Split(s, ",")` (recursion over the characters;
`Split("", ",")` yields `[""]`, like Go). -/
def splitCommaAux : List Char → List Char → List String
  | [], acc => [String.mk acc.reverse]
  | c :: cs, acc =>
    if c = ',' then String.mk acc.reverse :: splitCommaAux cs []
    else splitCommaAux cs (c :: acc)

/-- Embeds Go's `strings.Split(s, ",")` on a whole string. -/
def splitComma (s : String) : List String :=
  splitCommaAux s.data []

/-- Embeds Go's `strings.TrimSpace`: strips leading and trailing
whitespace characters. -/
def trimSpace (s : String) : String :=
  String.mk (((s.data.dropWhile Char.isWhitespace).reverse.dropWhile Char.isWhitespace).reverse)

/-- The body of the `for i := range ipList` loop in `config.go`
(`parseBatteries`): skip the index when the trimmed IP or token is blank,
otherwise name the battery from the trimmed `SONNENBATTERIE_NAMES` entry
when one exists at this index and is non-blank, falling back to
`"battery" + strconv.Itoa(i)`. -/
def batteryAt (ipList tokenList names : List String) (i : Nat) : Option Direct.Battery :=
  let ip := trimSpace (ipList.getD i "")
  let token := trimSpace (tokenList.getD i "")
  if ip = "" ∨ token = "" then none
  else
    let name :=
      if i < names.length ∧ trimSpace (names.getD i "") ≠ "" then trimSpace (names.getD i "")
      else "battery" ++ toString i
    some ⟨name, ip, token⟩

/-- Embeds `parseBatteries` from `config.go` (direct-API variant), applied
to the raw values of `SONNENBATTERIE_IPS`, `SONNENBATTERIE_TOKENS` and
`SONNENBATTERIE_NAMES`. -/
def parseBatteries (ips tokens namesEnv : String) : Except String (List Direct.Battery) :=
  if ips = "" then .error "SONNENBATTERIE_IPS must be set"
  else if tokens = "" then .error "SONNENBATTERIE_TOKENS must be set"
  else
    let ipList := splitComma ips
    let tokenList := splitComma tokens
    let names := splitComma namesEnv
    if ipList.length ≠ tokenList.length then
      .error "number of IPs must match number of tokens"
    else
      let batteries := (List.range ipList.length).filterMap (batteryAt ipList tokenList names)
      if batteries = [] then .error "no valid batteries configured"
      else .ok batteries

end Config

namespace Fixtures

/-- IC status block mirroring the repository's test fixture. -/
def sampleICStatus : Direct.ICStatus := ⟨"ready", "ongrid", "running", 2⟩

/-- Latest-data fixture mirroring the repository's test fixture. -/
def sampleLatestData : Direct.LatestData :=
  ⟨750.5, 5000, -250, 100, 500, 85, 83, "2025-11-29 21:00:00", sampleICStatus⟩

/-- Status fixture mirroring the repository's test fixture. -/
def sampleStatus : Direct.Status :=
  ⟨true, false, 750.5, -250, 100, 500, "OnGrid", 230, 50, 50⟩

/-- A configured battery for the direct-API variant. -/
def sampleBattery : Direct.Battery := ⟨"test-battery", "192.168.1.100", "test-token"⟩

/-- Both direct-variant endpoints answer successfully. -/
def envBoth : Direct.FetchEnv :=
  ⟨fun _ => .ok sampleLatestData, fun _ => .ok sampleStatus⟩

/-- Latest-data succeeds, the status endpoint answers HTTP 500. -/
def envStatusDown : Direct.FetchEnv :=
  ⟨fun _ => .ok sampleLatestData,
   fun _ => .error (.unexpectedStatus 500 "http://192.168.1.100/api/v2/status")⟩

/-- The latest-data endpoint is unreachable. -/
def envLatestDown : Direct.FetchEnv :=
  ⟨fun _ => .error (.connectionFailure "http://192.168.1.100/api/v2/latestdata"),
   fun _ => .ok sampleStatus⟩

/-- A status response in which the device reports both booleans true. -/
def bothFlagsStatus : Direct.Status :=
  ⟨true, true, 750.5, -250, 100, 500, "OnGrid", 230, 50, 50⟩

/-- Both endpoints up, the status reporting charging and discharging. -/
def envBothFlags : Direct.FetchEnv :=
  ⟨fun _ => .ok sampleLatestData, fun _ => .ok bothFlagsStatus⟩

/-- Latest-data whose power values differ from the status response's. -/
def overlapLatestData : Direct.LatestData :=
  ⟨1, 5000, 3, 5, 7, 85, 83, "2025-11-29 21:00:00", sampleICStatus⟩

/-- Status whose power values differ from the latest-data response's. -/
def overlapStatus : Direct.Status :=
  ⟨false, true, 2, 4, 6, 8, "OnGrid", 230, 50, 50⟩

/-- Both endpoints up, with distinguishable overlapping power values. -/
def envOverlap : Direct.FetchEnv :=
  ⟨fun _ => .ok overlapLatestData, fun _ => .ok overlapStatus⟩

/-- System-info fixture mirroring the repository's test fixture. -/
def sampleSystem : Api.System :=
  ⟨"10.0.0.100", "31.31.31.31", "eco 8.0", "AA:BB:CC:DD:EE:FF", "1.8.3", "1.0", "green"⟩

/-- Consumption fixture (1.5 kW, already milliwatts). -/
def sampleConsumption : Api.Consumption := ⟨1500000⟩

/-- Status fixture of the API-proxy variant. -/
def sampleApiStatus : Api.Status := ⟨500000, 3000000, 85, "charging"⟩

/-- A configured battery for the API-proxy variant. -/
def sampleApiBattery : Api.Battery := ⟨"test", "http://test:8080"⟩

/-- All three API-proxy endpoints answer successfully. -/
def apiEnvAll : Api.FetchEnv :=
  ⟨fun _ => .ok sampleSystem, fun _ => .ok sampleConsumption, fun _ => .ok sampleApiStatus⟩

/-- System and consumption succeed, the status endpoint answers HTTP 500. -/
def apiEnvStatusDown : Api.FetchEnv :=
  ⟨fun _ => .ok sampleSystem, fun _ => .ok sampleConsumption,
   fun _ => .error (.unexpectedStatus 500 "http://test:8080/api/status")⟩

/-- The system endpoint is unreachable. -/
def apiEnvSystemDown : Api.FetchEnv :=
  ⟨fun _ => .error (.connectionFailure "http://test:8080/api/system"),
   fun _ => .ok sampleConsumption, fun _ => .ok sampleApiStatus⟩

end Fixtures

/-- C1 counterexample: in the direct-API variant, when the combined
latest-data fetch succeeds but the status fetch fails, `collectBattery`
emits the scrape-health observation with value 0 — the source is marked
failed — and never a scrape-health value of 1, refuting the claim as
stated for this variant. -/
theorem direct_status_failure_marks_source_failed :
    Direct.V1.collectBattery Fixtures.envStatusDown Fixtures.sampleBattery
      = [⟨"sonnenbatterie_scrape_success", 0, ["test-battery"]⟩]
    ∧ Observation.mk "sonnenbatterie_scrape_success" 1 ["test-battery"]
        ∉ Direct.V1.collectBattery Fixtures.envStatusDown Fixtures.sampleBattery := by
  exact ⟨rfl, by decide⟩

/-- C1 (amended): in the API-proxy variant (`main.go`), where the status
fetch is genuinely supplementary, a source whose mandatory system and
consumption fetches succeed but whose status fetch fails still emits
scrape-health 1 plus every metric derivable without the status shape
(consumption and system info) — the supplementary failure does not mark
the source failed.  (In the direct-API variant both fetches are mandatory
and a status failure marks the source failed.) -/
theorem api_supplementary_failure_partial_success
    (env : Api.FetchEnv) (b : Api.Battery) (sys : Api.System)
    (cons : Api.Consumption) (e : FetchError)
    (hs : env.system b.APIURL = .ok sys)
    (hc : env.consumption b.APIURL = .ok cons)
    (hst : env.status b.APIURL = .error e) :
    Api.collectBattery env b =
      [⟨"sonnenbatterie_scrape_success", 1, [b.Name]⟩,
       ⟨"sonnenbatterie_consumption_mw", (cons.CurrentMW : ℚ), [b.Name, sys.Model, sys.MAC]⟩,
       ⟨"sonnenbatterie_info", 1,
        [b.Name, sys.Model, sys.MAC, sys.SoftwareVersion,
         sys.HardwareVersion, sys.LED, sys.IP, sys.WanIP]⟩] := by
  simp [Api.collectBattery, hs, hc, hst, Except.toOption]

/-- C1 witness: the amended theorem at a concrete environment in which the
status endpoint answers HTTP 500. -/
theorem api_supplementary_failure_partial_success_witness :
    Api.collectBattery Fixtures.apiEnvStatusDown Fixtures.sampleApiBattery =
      [⟨"sonnenbatterie_scrape_success", 1, ["test"]⟩,
       ⟨"sonnenbatterie_consumption_mw", ((1500000 : Int) : ℚ), ["test", "eco 8.0", "AA:BB:CC:DD:EE:FF"]⟩,
       ⟨"sonnenbatterie_info", 1,
        ["test", "eco 8.0", "AA:BB:CC:DD:EE:FF", "1.8.3", "1.0", "green", "10.0.0.100", "31.31.31.31"]⟩] :=
  api_supplementary_failure_partial_success Fixtures.apiEnvStatusDown Fixtures.sampleApiBattery
    Fixtures.sampleSystem Fixtures.sampleConsumption
    (.unexpectedStatus 500 "http://test:8080/api/status") rfl rfl rfl

/-- C2: if the mandatory combined-data fetch fails — for any error in the
taxonomy — the cycle emits for that source exactly one observation: the
scrape-health metric with value 0, labeled only by the source's name.
Stated for both direct-variant revisions (latest-data fetch fails) and
for the API-proxy variant (system fetch fails). -/
theorem combined_fetch_failure_single_zero_health
    (env : Direct.FetchEnv) (b : Direct.Battery) (e : FetchError)
    (h : env.latestData b = .error e)
    (env2 : Api.FetchEnv) (b2 : Api.Battery) (e2 : FetchError)
    (h2 : env2.system b2.APIURL = .error e2) :
    Direct.V1.collectBattery env b = [⟨"sonnenbatterie_scrape_success", 0, [b.Name]⟩]
    ∧ Direct.V2.collectBattery env b = [⟨"sonnenbatterie_scrape_success", 0, [b.Name]⟩]
    ∧ Api.collectBattery env2 b2 = [⟨"sonnenbatterie_scrape_success", 0, [b2.Name]⟩] := by
  refine ⟨?_, ?_, ?_⟩ <;>
    simp [Direct.V1.collectBattery, Direct.V2.collectBattery, Api.collectBattery, h, h2]

/-- C2 witness: the theorem at concrete environments in which the
mandatory fetch is unreachable. -/
theorem combined_fetch_failure_single_zero_health_witness :
    Direct.V1.collectBattery Fixtures.envLatestDown Fixtures.sampleBattery
      = [⟨"sonnenbatterie_scrape_success", 0, ["test-battery"]⟩]
    ∧ Direct.V2.collectBattery Fixtures.envLatestDown Fixtures.sampleBattery
      = [⟨"sonnenbatterie_scrape_success", 0, ["test-battery"]⟩]
    ∧ Api.collectBattery Fixtures.apiEnvSystemDown Fixtures.sampleApiBattery
      = [⟨"sonnenbatterie_scrape_success", 0, ["test"]⟩] :=
  combined_fetch_failure_single_zero_health Fixtures.envLatestDown Fixtures.sampleBattery
    (.connectionFailure "http://192.168.1.100/api/v2/latestdata") rfl
    Fixtures.apiEnvSystemDown Fixtures.sampleApiBattery
    (.connectionFailure "http://test:8080/api/system") rfl

/-- C3 counterexample: in the direct-API variant the charging and
discharging metrics mirror two independent upstream booleans
(`BatteryCharging`, `BatteryDischarging`), not a single tri-state mode; on
an upstream status reporting both booleans true, both metrics are emitted
with value 1 in the same scrape. -/
theorem direct_flags_both_one_possible :
    Observation.mk "sonnenbatterie_charging" 1 ["test-battery", "ready", "running"]
      ∈ Direct.V1.collectBattery Fixtures.envBothFlags Fixtures.sampleBattery
    ∧ Observation.mk "sonnenbatterie_discharging" 1 ["test-battery", "ready", "running"]
      ∈ Direct.V1.collectBattery Fixtures.envBothFlags Fixtures.sampleBattery := by
  constructor <;>
    simp [Direct.V1.collectBattery, Fixtures.envBothFlags, Fixtures.sampleBattery,
      Fixtures.sampleLatestData, Fixtures.bothFlagsStatus, Fixtures.sampleICStatus]

/-- C3 (amended): only in the API-proxy variant (`main.go`) are the flags
derived from the single tri-state `charge_mode` field, and there they are
never both 1: for every mode string at least one of the two flag values is
0 (`charging` | `discharging` | other ⇒ both 0).  In the direct-API
variant each flag mirrors its own upstream boolean, so both can be 1. -/
theorem tristate_flags_mutually_exclusive (mode : String) :
    Api.chargingFlag mode = 0 ∨ Api.dischargingFlag mode = 0 := by
  by_cases h : mode = "charging"
  · right
    simp [Api.dischargingFlag, h]
  · left
    simp [Api.chargingFlag, h]

/-- C4: every watt-scale upstream field (consumption, production, grid
feed-in, battery power) is emitted at exactly 1000 times its upstream
value — in revision V1 from the combined latest-data shape, in revision V2
from the status shape — including negative values; percentages (RSOC,
USOC) and the watt-hour capacity pass through unchanged. -/
theorem watt_fields_scaled_by_thousand
    (env : Direct.FetchEnv) (b : Direct.Battery) (ld : Direct.LatestData)
    (st : Direct.Status)
    (hld : env.latestData b = .ok ld) (hst : env.status b = .ok st) :
    lookupValue (Direct.V1.collectBattery env b) "sonnenbatterie_consumption_mw"
      = some (1000 * ld.ConsumptionW)
    ∧ lookupValue (Direct.V1.collectBattery env b) "sonnenbatterie_production_mw"
      = some (1000 * ld.ProductionW)
    ∧ lookupValue (Direct.V1.collectBattery env b) "sonnenbatterie_grid_feed_in_mw"
      = some (1000 * ld.GridFeedInW)
    ∧ lookupValue (Direct.V1.collectBattery env b) "sonnenbatterie_battery_power_mw"
      = some (1000 * ld.PacTotalW)
    ∧ lookupValue (Direct.V1.collectBattery env b) "sonnenbatterie_charge_level_percent"
      = some (ld.RSOC : ℚ)
    ∧ lookupValue (Direct.V1.collectBattery env b) "sonnenbatterie_user_charge_level_percent"
      = some (ld.USOC : ℚ)
    ∧ lookupValue (Direct.V1.collectBattery env b) "sonnenbatterie_full_charge_capacity_wh"
      = some (ld.FullChargeCapacity : ℚ)
    ∧ lookupValue (Direct.V2.collectBattery env b) "sonnenbatterie_consumption_mw"
      = some (1000 * st.ConsumptionW)
    ∧ lookupValue (Direct.V2.collectBattery env b) "sonnenbatterie_production_mw"
      = some (1000 * st.ProductionW)
    ∧ lookupValue (Direct.V2.collectBattery env b) "sonnenbatterie_grid_feed_in_mw"
      = some (1000 * st.GridFeedInW)
    ∧ lookupValue (Direct.V2.collectBattery env b) "sonnenbatterie_battery_power_mw"
      = some (1000 * st.PacTotalW) := by
  refine ⟨?_, ?_, ?_, ?_, ?_, ?_, ?_, ?_, ?_, ?_, ?_⟩ <;>
    simp [lookupValue, Direct.V1.collectBattery, Direct.V2.collectBattery,
      hld, hst, List.find?, mul_comm]

/-- C4 witness: the scaling law at the repository's test fixture, whose
grid feed-in is negative (-250 W ↦ -250000 mW). -/
theorem watt_fields_scaled_by_thousand_witness :
    lookupValue (Direct.V1.collectBattery Fixtures.envBoth Fixtures.sampleBattery)
      "sonnenbatterie_consumption_mw" = some (1000 * (750.5 : ℚ))
    ∧ lookupValue (Direct.V1.collectBattery Fixtures.envBoth Fixtures.sampleBattery)
      "sonnenbatterie_production_mw" = some (1000 * (500 : ℚ))
    ∧ lookupValue (Direct.V1.collectBattery Fixtures.envBoth Fixtures.sampleBattery)
      "sonnenbatterie_grid_feed_in_mw" = some (1000 * (-250 : ℚ))
    ∧ lookupValue (Direct.V1.collectBattery Fixtures.envBoth Fixtures.sampleBattery)
      "sonnenbatterie_battery_power_mw" = some (1000 * (100 : ℚ))
    ∧ lookupValue (Direct.V1.collectBattery Fixtures.envBoth Fixtures.sampleBattery)
      "sonnenbatterie_charge_level_percent" = some ((85 : Int) : ℚ)
    ∧ lookupValue (Direct.V1.collectBattery Fixtures.envBoth Fixtures.sampleBattery)
      "sonnenbatterie_user_charge_level_percent" = some ((83 : Int) : ℚ)
    ∧ lookupValue (Direct.V1.collectBattery Fixtures.envBoth Fixtures.sampleBattery)
      "sonnenbatterie_full_charge_capacity_wh" = some ((5000 : Int) : ℚ)
    ∧ lookupValue (Direct.V2.collectBattery Fixtures.envBoth Fixtures.sampleBattery)
      "sonnenbatterie_consumption_mw" = some (1000 * (750.5 : ℚ))
    ∧ lookupValue (Direct.V2.collectBattery Fixtures.envBoth Fixtures.sampleBattery)
      "sonnenbatterie_production_mw" = some (1000 * (500 : ℚ))
    ∧ lookupValue (Direct.V2.collectBattery Fixtures.envBoth Fixtures.sampleBattery)
      "sonnenbatterie_grid_feed_in_mw" = some (1000 * (-250 : ℚ))
    ∧ lookupValue (Direct.V2.collectBattery Fixtures.envBoth Fixtures.sampleBattery)
      "sonnenbatterie_battery_power_mw" = some (1000 * (100 : ℚ)) :=
  watt_fields_scaled_by_thousand Fixtures.envBoth Fixtures.sampleBattery
    Fixtures.sampleLatestData Fixtures.sampleStatus rfl rfl

/-- C5 counterexample: in direct-variant revision V1 the combined
latest-data values are used for the overlapping power quantities even when
the supplementary status shape was fetched successfully: with a combined
consumption of 1 W and a status consumption of 2 W, the emitted value is
1000 (from the combined shape), not the status shape's 2000. -/
theorem v1_combined_value_overrides_status :
    lookupValue (Direct.V1.collectBattery Fixtures.envOverlap Fixtures.sampleBattery)
      "sonnenbatterie_consumption_mw" = some 1000
    ∧ some (1000 : ℚ) ≠ some (Fixtures.overlapStatus.ConsumptionW * 1000) := by
  constructor
  · simp +decide [lookupValue, Direct.V1.collectBattery, Fixtures.envOverlap,
      Fixtures.sampleBattery, Fixtures.overlapLatestData, Fixtures.overlapStatus,
      Fixtures.sampleICStatus, List.find?]
  · norm_num [Fixtures.overlapStatus]

/-- C5 (amended): in direct-variant revision V2 the supplementary status
shape's values are authoritative for every overlapping power quantity
(consumption, production, grid feed-in, battery power), and the combined
shape supplies only what the status shape lacks (charge level, user charge
level, full charge capacity, health-state labels); revision V1 instead
takes the overlapping power values from the combined shape even when the
status shape is available. -/
theorem v2_status_values_authoritative
    (env : Direct.FetchEnv) (b : Direct.Battery) (ld : Direct.LatestData)
    (st : Direct.Status)
    (hld : env.latestData b = .ok ld) (hst : env.status b = .ok st) :
    lookupValue (Direct.V2.collectBattery env b) "sonnenbatterie_consumption_mw"
      = some (st.ConsumptionW * 1000)
    ∧ lookupValue (Direct.V2.collectBattery env b) "sonnenbatterie_production_mw"
      = some (st.ProductionW * 1000)
    ∧ lookupValue (Direct.V2.collectBattery env b) "sonnenbatterie_grid_feed_in_mw"
      = some (st.GridFeedInW * 1000)
    ∧ lookupValue (Direct.V2.collectBattery env b) "sonnenbatterie_battery_power_mw"
      = some (st.PacTotalW * 1000)
    ∧ lookupValue (Direct.V2.collectBattery env b) "sonnenbatterie_charge_level_percent"
      = some (ld.RSOC : ℚ)
    ∧ lookupValue (Direct.V2.collectBattery env b) "sonnenbatterie_user_charge_level_percent"
      = some (ld.USOC : ℚ)
    ∧ lookupValue (Direct.V2.collectBattery env b) "sonnenbatterie_full_charge_capacity_wh"
      = some (ld.FullChargeCapacity : ℚ) := by
  refine ⟨?_, ?_, ?_, ?_, ?_, ?_, ?_⟩ <;>
    simp [lookupValue, Direct.V2.collectBattery, hld, hst, List.find?]

/-- C5 witness: revision V2 at the fixture whose overlapping power values
differ between the two shapes; every power metric takes the status value,
every remaining metric the combined value. -/
theorem v2_status_values_authoritative_witness :
    lookupValue (Direct.V2.collectBattery Fixtures.envOverlap Fixtures.sampleBattery)
      "sonnenbatterie_consumption_mw" = some (Fixtures.overlapStatus.ConsumptionW * 1000)
    ∧ lookupValue (Direct.V2.collectBattery Fixtures.envOverlap Fixtures.sampleBattery)
      "sonnenbatterie_production_mw" = some (Fixtures.overlapStatus.ProductionW * 1000)
    ∧ lookupValue (Direct.V2.collectBattery Fixtures.envOverlap Fixtures.sampleBattery)
      "sonnenbatterie_grid_feed_in_mw" = some (Fixtures.overlapStatus.GridFeedInW * 1000)
    ∧ lookupValue (Direct.V2.collectBattery Fixtures.envOverlap Fixtures.sampleBattery)
      "sonnenbatterie_battery_power_mw" = some (Fixtures.overlapStatus.PacTotalW * 1000)
    ∧ lookupValue (Direct.V2.collectBattery Fixtures.envOverlap Fixtures.sampleBattery)
      "sonnenbatterie_charge_level_percent" = some ((85 : Int) : ℚ)
    ∧ lookupValue (Direct.V2.collectBattery Fixtures.envOverlap Fixtures.sampleBattery)
      "sonnenbatterie_user_charge_level_percent" = some ((83 : Int) : ℚ)
    ∧ lookupValue (Direct.V2.collectBattery Fixtures.envOverlap Fixtures.sampleBattery)
      "sonnenbatterie_full_charge_capacity_wh" = some ((5000 : Int) : ℚ) :=
  v2_status_values_authoritative Fixtures.envOverlap Fixtures.sampleBattery
    Fixtures.overlapLatestData Fixtures.overlapStatus rfl rfl

/-- A network answering every request with HTTP 204 and a decodable body. -/
def net204 : Direct.Network := fun _ => some ⟨204, "{}"⟩

/-- A network answering every request with HTTP 404. -/
def net404 : Direct.Network := fun _ => some ⟨404, ""⟩

/-- A network answering every request with HTTP 200 and body `"body"`. -/
def net200 : Direct.Network := fun _ => some ⟨200, "body"⟩

/-- C6 counterexample: HTTP 204 is a success status (inside the 200
range), yet `fetchJSON` rejects it — the status gate tests `!= 200`
exactly — so the fetch fails on status grounds with the error carrying
204, never reaching the decode step despite a decodable body. -/
theorem success_status_204_rejected :
    (Direct.fetchJSON net204 (fun _ => some (0 : Int)) "http://b/api/v2/status" "token").2
      = .error (.unexpectedStatus 204 "http://b/api/v2/status")
    ∧ (200 : Int) ≤ 204 ∧ (204 : Int) < 300 := by
  exact ⟨rfl, by norm_num, by norm_num⟩

/-- C6 (amended): the status gate accepts only the exact status code 200:
for every other code — including other success (2xx) codes — the fetch
fails with the error carrying that numeric code, and on exactly 200 it
proceeds to decode the body (failing only as a decode error).  Stated for
both the direct variant's `fetchJSON` (with auth header) and the
API-proxy variant's. -/
theorem fetch_status_gate {α : Type} (net : Direct.Network)
    (decode : String → Option α) (url token : String)
    (resp resp2 : Direct.HTTPResponse)
    (hresp : net ⟨"GET", url, [("Auth-Token", token)]⟩ = some resp)
    (hresp2 : net ⟨"GET", url, []⟩ = some resp2) :
    (resp.StatusCode ≠ 200 →
      (Direct.fetchJSON net decode url token).2
        = .error (.unexpectedStatus resp.StatusCode url))
    ∧ (resp.StatusCode = 200 →
      (Direct.fetchJSON net decode url token).2 =
        match decode resp.Body with
        | none => .error (.decodeFailure url)
        | some v => .ok v)
    ∧ (resp2.StatusCode ≠ 200 →
      (Api.fetchJSON net decode url).2
        = .error (.unexpectedStatus resp2.StatusCode url))
    ∧ (resp2.StatusCode = 200 →
      (Api.fetchJSON net decode url).2 =
        match decode resp2.Body with
        | none => .error (.decodeFailure url)
        | some v => .ok v) := by
  refine ⟨?_, ?_, ?_, ?_⟩ <;> intro h <;>
    simp [Direct.fetchJSON, Api.fetchJSON, hresp, hresp2, h]

/-- C6 witness: a 404 answer fails carrying 404 in both variants, and a
200 answer reaches the decode step and succeeds. -/
theorem fetch_status_gate_witness :
    (Direct.fetchJSON net404 (fun _ => some (0 : Int)) "http://h/api" "t").2
      = .error (.unexpectedStatus 404 "http://h/api")
    ∧ (Api.fetchJSON net404 (fun _ => some (0 : Int)) "http://h/api").2
      = .error (.unexpectedStatus 404 "http://h/api")
    ∧ (Direct.fetchJSON net200 (fun s => some s) "http://h/api" "t").2 = .ok "body" :=
  ⟨(fetch_status_gate net404 (fun _ => some (0 : Int)) "http://h/api" "t"
      ⟨404, ""⟩ ⟨404, ""⟩ rfl rfl).1 (by norm_num),
   (fetch_status_gate net404 (fun _ => some (0 : Int)) "http://h/api" "t"
      ⟨404, ""⟩ ⟨404, ""⟩ rfl rfl).2.2.1 (by norm_num),
   (fetch_status_gate net200 (fun s => some s) "http://h/api" "t"
      ⟨200, "body"⟩ ⟨200, "body"⟩ rfl rfl).2.1 rfl⟩

/-- C7 counterexample: with one configured IP and token and no configured
names, the loader auto-generates the name `battery0`, not `source0` as the
claim's template `source<index>` would demand. -/
theorem auto_name_is_battery_not_source :
    Config.parseBatteries "192.168.1.100" "token123" ""
      = .ok [⟨"battery0", "192.168.1.100", "token123"⟩]
    ∧ "battery0" ≠ "source0" := by
  exact ⟨rfl, by decide⟩

/-- C7 (amended): for every configured source at position `i` whose
operator-assigned name is absent or blank after trimming, the loop body of
the configuration loader assigns the auto-generated name `battery<i>` (not
`source<i>`); a present, non-blank name is used verbatim after trimming. -/
theorem auto_name_assignment (ipList tokenList names : List String) (i : Nat)
    (hip : Config.trimSpace (ipList.getD i "") ≠ "")
    (htok : Config.trimSpace (tokenList.getD i "") ≠ "") :
    (¬ (i < names.length ∧ Config.trimSpace (names.getD i "") ≠ "") →
      Config.batteryAt ipList tokenList names i =
        some ⟨"battery" ++ toString i, Config.trimSpace (ipList.getD i ""),
          Config.trimSpace (tokenList.getD i "")⟩)
    ∧ ((i < names.length ∧ Config.trimSpace (names.getD i "") ≠ "") →
      Config.batteryAt ipList tokenList names i =
        some ⟨Config.trimSpace (names.getD i ""), Config.trimSpace (ipList.getD i ""),
          Config.trimSpace (tokenList.getD i "")⟩) := by
  have hcond : ¬ (Config.trimSpace (ipList.getD i "") = ""
      ∨ Config.trimSpace (tokenList.getD i "") = "") := by
    push_neg
    exact ⟨hip, htok⟩
  constructor <;> intro h
  · simp only [Config.batteryAt]
    rw [if_neg hcond, if_neg h]
  · simp only [Config.batteryAt]
    rw [if_neg hcond, if_pos h]

/-- C7 witness: index 0 with a non-blank IP and token and an empty name
list receives the auto-generated name `battery0`. -/
theorem auto_name_assignment_witness :
    Config.batteryAt ["192.168.1.100"] ["token123"] [] 0
      = some ⟨"battery" ++ toString (0 : Nat), Config.trimSpace "192.168.1.100",
          Config.trimSpace "token123"⟩ :=
  (auto_name_assignment ["192.168.1.100"] ["token123"] [] 0
    (by decide) (by decide)).1 (by decide)

/-- Every direct-variant (V1) per-source task emits exactly one
scrape-health observation, whatever its fetches return. -/
theorem countP_scrape_collectBattery_v1 (env : Direct.FetchEnv) (b : Direct.Battery) :
    (Direct.V1.collectBattery env b).countP isScrapeHealth = 1 := by
  cases h1 : env.latestData b with
  | error e => simp +decide [Direct.V1.collectBattery, h1, isScrapeHealth]
  | ok ld =>
    cases h2 : env.status b with
    | error e => simp +decide [Direct.V1.collectBattery, h1, h2, isScrapeHealth]
    | ok st => simp +decide [Direct.V1.collectBattery, h1, h2, isScrapeHealth]

/-- Every API-proxy per-source task emits exactly one scrape-health
observation, whatever its fetches return. -/
theorem countP_scrape_collectBattery_api (env : Api.FetchEnv) (b : Api.Battery) :
    (Api.collectBattery env b).countP isScrapeHealth = 1 := by
  cases h1 : env.system b.APIURL with
  | error e => simp +decide [Api.collectBattery, h1, isScrapeHealth]
  | ok sys =>
    cases h2 : env.consumption b.APIURL with
    | error e => simp +decide [Api.collectBattery, h1, h2, isScrapeHealth]
    | ok cons =>
      cases h3 : env.status b.APIURL with
      | error e =>
        simp +decide [Api.collectBattery, h1, h2, h3, Except.toOption, isScrapeHealth]
      | ok st =>
        simp +decide [Api.collectBattery, h1, h2, h3, Except.toOption, isScrapeHealth]

/-- C8: a collection cycle over any configured source list is a total
function of the fetch results (the sequential model of the joined fan-out
terminates for every N ≥ 0); the empty list yields no observations at
all, each per-source task emits exactly one scrape-health observation,
and a whole cycle over N sources emits exactly N scrape-health
observations — in particular at most one per configured source.  Stated
for the direct variant (revision V1) and the API-proxy variant. -/
theorem collect_one_health_per_source
    (env : Direct.FetchEnv) (bs : List Direct.Battery)
    (env2 : Api.FetchEnv) (bs2 : List Api.Battery) :
    Direct.V1.Collect env [] = []
    ∧ (∀ b : Direct.Battery, (Direct.V1.collectBattery env b).countP isScrapeHealth = 1)
    ∧ (Direct.V1.Collect env bs).countP isScrapeHealth = bs.length
    ∧ Api.Collect env2 [] = []
    ∧ (∀ b : Api.Battery, (Api.collectBattery env2 b).countP isScrapeHealth = 1)
    ∧ (Api.Collect env2 bs2).countP isScrapeHealth = bs2.length := by
  refine ⟨rfl, countP_scrape_collectBattery_v1 env, ?_, rfl,
    countP_scrape_collectBattery_api env2, ?_⟩
  · induction bs with
    | nil => simp [Direct.V1.Collect]
    | cons b t ih =>
      simp only [Direct.V1.Collect, List.map_cons, List.flatten_cons,
        List.countP_append] at ih ⊢
      simp [countP_scrape_collectBattery_v1 env b, ih, Nat.add_comm]
  · induction bs2 with
    | nil => simp [Api.Collect]
    | cons b t ih =>
      simp only [Api.Collect, List.map_cons, List.flatten_cons,
        List.countP_append] at ih ⊢
      simp [countP_scrape_collectBattery_api env2 b, ih, Nat.add_comm]

/-- Every observation of a direct-variant (V1) task has the task's own
battery name as its first label value. -/
theorem v1_labels_head (env : Direct.FetchEnv) (b : Direct.Battery) :
    ∀ o ∈ Direct.V1.collectBattery env b, o.labels.head? = some b.Name := by
  intro o ho
  cases h1 : env.latestData b with
  | error e =>
    simp [Direct.V1.collectBattery, h1] at ho
    subst ho; rfl
  | ok ld =>
    cases h2 : env.status b with
    | error e =>
      simp [Direct.V1.collectBattery, h1, h2] at ho
      subst ho; rfl
    | ok st =>
      simp [Direct.V1.collectBattery, h1, h2] at ho
      rcases ho with rfl | rfl | rfl | rfl | rfl | rfl | rfl | rfl | rfl | rfl | rfl <;> rfl

/-- Every observation of a direct-variant (V2) task has the task's own
battery name as its first label value. -/
theorem v2_labels_head (env : Direct.FetchEnv) (b : Direct.Battery) :
    ∀ o ∈ Direct.V2.collectBattery env b, o.labels.head? = some b.Name := by
  intro o ho
  cases h1 : env.latestData b with
  | error e =>
    simp [Direct.V2.collectBattery, h1] at ho
    subst ho; rfl
  | ok ld =>
    cases h2 : env.status b with
    | error e =>
      simp [Direct.V2.collectBattery, h1, h2] at ho
      subst ho; rfl
    | ok st =>
      simp [Direct.V2.collectBattery, h1, h2] at ho
      rcases ho with rfl | rfl | rfl | rfl | rfl | rfl | rfl | rfl | rfl | rfl | rfl | rfl | rfl | rfl <;> rfl

/-- Every observation of an API-proxy task has the task's own battery name
as its first label value. -/
theorem api_labels_head (env : Api.FetchEnv) (b : Api.Battery) :
    ∀ o ∈ Api.collectBattery env b, o.labels.head? = some b.Name := by
  intro o ho
  cases h1 : env.system b.APIURL with
  | error e =>
    simp [Api.collectBattery, h1] at ho
    subst ho; rfl
  | ok sys =>
    cases h2 : env.consumption b.APIURL with
    | error e =>
      simp [Api.collectBattery, h1, h2] at ho
      subst ho; rfl
    | ok cons =>
      cases h3 : env.status b.APIURL with
      | error e =>
        simp [Api.collectBattery, h1, h2, h3, Except.toOption] at ho
        rcases ho with rfl | rfl | rfl <;> rfl
      | ok st =>
        simp [Api.collectBattery, h1, h2, h3, Except.toOption] at ho
        rcases ho with rfl | rfl | rfl | rfl | rfl | rfl | rfl | rfl <;> rfl

/-- C9: every observation a source's task emits carries that source's own
name as its first (battery-name) label — in both variants and for any
fetch outcome — and every observation of a whole collection cycle belongs
to some configured source's own task and carries that source's name:
observations are never tagged with another source's labels, however many
sources run in the same cycle. -/
theorem observations_carry_own_source_labels
    (env : Direct.FetchEnv) (b : Direct.Battery)
    (env2 : Api.FetchEnv) (b2 : Api.Battery) (bs : List Direct.Battery) :
    (∀ o ∈ Direct.V1.collectBattery env b, o.labels.head? = some b.Name)
    ∧ (∀ o ∈ Direct.V2.collectBattery env b, o.labels.head? = some b.Name)
    ∧ (∀ o ∈ Api.collectBattery env2 b2, o.labels.head? = some b2.Name)
    ∧ (∀ o ∈ Direct.V1.Collect env bs, ∃ bb ∈ bs,
        o ∈ Direct.V1.collectBattery env bb ∧ o.labels.head? = some bb.Name) := by
  refine ⟨v1_labels_head env b, v2_labels_head env b, api_labels_head env2 b2, ?_⟩
  intro o ho
  simp only [Direct.V1.Collect, List.mem_flatten, List.mem_map] at ho
  obtain ⟨l, ⟨bb, hbb, rfl⟩, hol⟩ := ho
  exact ⟨bb, hbb, hol, v1_labels_head env bb o hol⟩

/-- C9 witness: at a concrete two-source cycle, the scrape-health
observation of the first source carries that source's own name. -/
theorem observations_carry_own_source_labels_witness :
    (Observation.mk "sonnenbatterie_scrape_success" 1 ["test-battery"]).labels.head?
      = some "test-battery" :=
  (observations_carry_own_source_labels Fixtures.envBoth Fixtures.sampleBattery
    Fixtures.apiEnvAll Fixtures.sampleApiBattery [Fixtures.sampleBattery]).1
    ⟨"sonnenbatterie_scrape_success", 1, ["test-battery"]⟩ (List.Mem.head _)

/-- A URL-parse oracle under which `http.NewRequest` fails, as Go's does
for a URL containing a control character. -/
def urlNeverParses : String → Bool := fun _ => false

/-- C10 counterexample: on the `http.NewRequest` error branch of the
direct-API `fetchJSON` (a URL Go's request constructor rejects), the
fetch call returns the build error having issued zero HTTP requests —
not exactly one — and set no header. -/
theorem build_failure_issues_no_request :
    (Direct.fetchJSONFull urlNeverParses net200 (fun s => some s)
        "http://192.168.1.100\n/api/v2/latestdata" "test-token").1 = []
    ∧ (Direct.fetchJSONFull urlNeverParses net200 (fun s => some s)
        "http://192.168.1.100\n/api/v2/latestdata" "test-token").2
      = .error (.requestBuildFailure "http://192.168.1.100\n/api/v2/latestdata")
    ∧ (Direct.fetchJSONFull urlNeverParses net200 (fun s => some s)
        "http://192.168.1.100\n/api/v2/latestdata" "test-token").1.length ≠ 1 := by
  exact ⟨rfl, rfl, by decide⟩

/-- C10 (amended): per fetch call the direct-API fetcher issues at most
one HTTP request — exactly one whenever request construction succeeds,
and zero when `http.NewRequest` rejects the URL, a path that returns the
build error without setting any header; every request actually issued is
a GET carrying the `Auth-Token` header with the configured token string,
even when the token is empty; there is no retry branch. -/
theorem fetch_at_most_one_request_auth_header {α : Type} (urlOK : String → Bool)
    (net : Direct.Network) (decode : String → Option α) (url token : String) :
    (urlOK url = true →
      (Direct.fetchJSONFull urlOK net decode url token).1
        = [⟨"GET", url, [("Auth-Token", token)]⟩])
    ∧ (urlOK url = false →
      (Direct.fetchJSONFull urlOK net decode url token).1 = []
      ∧ (Direct.fetchJSONFull urlOK net decode url token).2
          = .error (.requestBuildFailure url))
    ∧ (Direct.fetchJSONFull urlOK net decode url token).1.length ≤ 1
    ∧ ∀ r ∈ (Direct.fetchJSONFull urlOK net decode url token).1,
        r.Method = "GET" ∧ r.URL = url ∧ r.Headers = [("Auth-Token", token)] := by
  cases hu : urlOK url <;>
    simp [Direct.fetchJSONFull, Direct.fetchJSON, hu]

/-- C10 witness: with an accepting oracle and the empty token the single
issued request carries the `Auth-Token` header with the empty string;
with a rejecting oracle no request is issued. -/
theorem fetch_at_most_one_request_auth_header_witness :
    (Direct.fetchJSONFull (fun _ => true) net200 (fun s => some s) "http://h/api" "").1
      = [⟨"GET", "http://h/api", [("Auth-Token", "")]⟩]
    ∧ (Direct.fetchJSONFull urlNeverParses net200 (fun s => some s) "http://h/api" "").1
      = [] :=
  ⟨(fetch_at_most_one_request_auth_header (fun _ => true) net200 (fun s => some s)
      "http://h/api" "").1 rfl,
   ((fetch_at_most_one_request_auth_header urlNeverParses net200 (fun s => some s)
      "http://h/api" "").2.1 rfl).1⟩

end SonnenExporter
